import Mathlib

set_option maxRecDepth 100000

/-!
Shallow embedding of the `bella_tracer_v2` retrieval-and-reasoning pipeline
(`src/bella_tracer_v2/agent.py` and `models.py`).

Conventions of the embedding:
* Timestamps are modelled as naturals ordered chronologically (the store
  orders records with `ORDER BY log.timestamp`); similarity and relevance
  scores are rationals.
* The external reasoning service, the embedding model and the vector index
  are oracles: a reasoning-service call that may fail is an `Except` value,
  and the vector index answer for the current query embedding is a list of
  `(chunk id, similarity score)` pairs.
* The Neo4j database is a list of `LogEntry` rows carrying the joined
  attributes the Cypher queries read (`EMITTED_BY` service, `RUNNING_ON`
  pod, `PART_OF_TRACE` trace, the trace's `IS_SCENARIO` name, and the
  chunk links `FROM_CHUNK|MENTIONS`); the two Cypher queries of
  `retrieval_node` are given relational semantics over that list.
-/

namespace BellaTracer

/-- The `extracted_filters` JSON of `extract_dates_node`: nullable
inclusive start/end bounds. -/
structure TimeFilter where
  start_date : Option Nat
  end_date : Option Nat
deriving Repr, DecidableEq

/-- One retrieved document dict as built by `retrieval_node`
(`{"text": content, "trace_id": ..., "score": ...}`), with the
`rerank_score` / `rerank_reason` keys `OpenAIRerankerService.rerank`
may attach later. -/
structure Doc where
  text : String
  trace_id : Option String
  score : Rat
  rerank_score : Option Rat := none
  rerank_reason : Option String := none
deriving Repr, DecidableEq

/-- `GraphState` from `models.py`. -/
structure GraphState where
  original_question : String
  optimized_question : String
  extracted_filters : TimeFilter
  retrieved_docs : List Doc
  reranked_docs : List Doc
  final_answer : String
deriving Repr, DecidableEq

/-- `RankedDocument` from `models.py`: one ranking decision of the
reranking service. `index` is a Python int, hence `Int`. -/
structure RankedDocument where
  index : Int
  relevance_score : Rat
  reasoning : String
deriving Repr, DecidableEq

/-- `RankingOutput` from `models.py`. -/
structure RankingOutput where
  ranked_results : List RankedDocument
deriving Repr, DecidableEq

/-- One `LogEntry` node of the store together with the attributes the
Cypher queries join onto it. `chunks` lists the chunk ids this log is
linked to through `FROM_CHUNK` or `MENTIONS` (one list element per
relationship). `scenario` is the owning trace's scenario name, stored
denormalised. -/
structure LogEntry where
  message : String
  level : String
  timestamp : Nat
  service : Option String
  pod : Option String
  trace_id : Option String
  scenario : Option String
  chunks : List String
deriving Repr, DecidableEq

/-- One row returned by either Cypher query of `retrieval_node`. -/
structure RetRecord where
  message : String
  level : String
  timestamp : Nat
  service : Option String
  pod : Option String
  trace_id : Option String
  scenario : Option String
  score : Rat
deriving Repr, DecidableEq

/-! ### Trace-id detection

`retrieval_node` runs
`re.search(r"\b[0-9a-fA-F]{8}-[0-9a-fA-F]{4}-[0-9a-fA-F]{4}-[0-9a-fA-F]{4}-[0-9a-fA-F]{12}\b", question)`.
We model that search: leftmost occurrence of the 8-4-4-4-12 hex shape
with word boundaries on both sides (word characters are `[A-Za-z0-9_]`,
the ASCII reading of `\w`). -/

/-- `[0-9a-fA-F]`. -/
def isHexDigit (c : Char) : Bool :=
  ('0' ≤ c && c ≤ '9') || ('a' ≤ c && c ≤ 'f') || ('A' ≤ c && c ≤ 'F')

/-- ASCII `\w`. -/
def isWordChar (c : Char) : Bool :=
  ('0' ≤ c && c ≤ '9') || ('a' ≤ c && c ≤ 'z') || ('A' ≤ c && c ≤ 'Z') || c == '_'

/-- Consume exactly `n` hex digits, returning the remaining characters. -/
def takeHex : Nat → List Char → Option (List Char)
  | 0, cs => some cs
  | _ + 1, [] => none
  | n + 1, c :: cs => if isHexDigit c then takeHex n cs else none

/-- Consume one `-`. -/
def takeDash : List Char → Option (List Char)
  | '-' :: cs => some cs
  | _ => none

/-- Match the 36-character UUID shape at the head of the list, returning
the remaining characters on success. -/
def matchUuidRest (cs : List Char) : Option (List Char) :=
  ((((((((takeHex 8 cs).bind takeDash).bind (takeHex 4)).bind takeDash).bind
      (takeHex 4)).bind takeDash).bind (takeHex 4)).bind takeDash).bind (takeHex 12)

/-- The trailing `\b`: end of input or a non-word character next. -/
def boundaryAfter : List Char → Bool
  | [] => true
  | c :: _ => !isWordChar c

/-- Scan left to right; the flag records whether a word boundary holds
before the current position. -/
def findTraceIdAux : Bool → List Char → Option String
  | _, [] => none
  | bnd, c :: cs =>
    if bnd then
      match matchUuidRest (c :: cs) with
      | some rest =>
        if boundaryAfter rest then some (String.mk (List.take 36 (c :: cs)))
        else findTraceIdAux (!isWordChar c) cs
      | none => findTraceIdAux (!isWordChar c) cs
    else findTraceIdAux (!isWordChar c) cs

/-- The `re.search` of `retrieval_node`: leftmost UUID-shaped token in the
question, if any. -/
def findTraceId (question : String) : Option String :=
  findTraceIdAux true question.toList

/-! ### Ordering relations used by the Cypher `ORDER BY` clauses -/

/-- `ORDER BY log.timestamp ASC`. -/
def tsLe (a b : RetRecord) : Prop := a.timestamp ≤ b.timestamp

/-- `ORDER BY score DESC` on result rows. -/
def scoreGe (a b : RetRecord) : Prop := b.score ≤ a.score

/-- Descending similarity order on `(chunk id, score)` pairs, the order in
which `db.index.vector.queryNodes` yields its nearest neighbours. -/
def chunkScoreGe (a b : String × Rat) : Prop := b.2 ≤ a.2

instance : DecidableRel tsLe :=
  fun a b => inferInstanceAs (Decidable (a.timestamp ≤ b.timestamp))

instance : DecidableRel scoreGe :=
  fun a b => inferInstanceAs (Decidable (b.score ≤ a.score))

instance : DecidableRel chunkScoreGe :=
  fun a b => inferInstanceAs (Decidable (b.2 ≤ a.2))

instance : IsTotal RetRecord tsLe :=
  ⟨fun a b => Nat.le_total a.timestamp b.timestamp⟩

instance : IsTrans RetRecord tsLe :=
  ⟨fun _ _ _ h1 h2 => Nat.le_trans h1 h2⟩

instance : IsTotal RetRecord scoreGe :=
  ⟨fun a b => le_total b.score a.score⟩

instance : IsTrans RetRecord scoreGe :=
  ⟨fun _ _ _ h1 h2 => le_trans h2 h1⟩

instance : IsTotal (String × Rat) chunkScoreGe :=
  ⟨fun a b => le_total b.2 a.2⟩

instance : IsTrans (String × Rat) chunkScoreGe :=
  ⟨fun _ _ _ h1 h2 => le_trans h2 h1⟩

/-! ### The two store queries of `retrieval_node` -/

/-- How many nearest neighbours the semantic query requests:
`CALL db.index.vector.queryNodes('log_vector_index', 10, $embedding)`. -/
def vectorTopN : Nat := 10

/-- Row produced for one log by the exact-trace query
(`RETURN ..., 1.0 AS score`). -/
def exactRecord (e : LogEntry) : RetRecord :=
  { message := e.message, level := e.level, timestamp := e.timestamp,
    service := e.service, pod := e.pod, trace_id := e.trace_id,
    scenario := e.scenario, score := 1 }

/-- Semantics of the exact-trace Cypher query: all logs linked to the
trace `tid` by `PART_OF_TRACE`, with fixed score `1.0`,
`ORDER BY log.timestamp ASC`. -/
def exactTraceRecords (db : List LogEntry) (tid : String) : List RetRecord :=
  List.insertionSort tsLe ((db.filter (fun e => e.trace_id == some tid)).map exactRecord)

/-- Row produced for one log joined to a similarity hit of score `s`.
The semantic query does not return `pod`, and its
`OPTIONAL MATCH (t)-[:IS_SCENARIO]->(scenario)` yields null when the log
has no trace. -/
def hybridRecord (e : LogEntry) (s : Rat) : RetRecord :=
  { message := e.message, level := e.level, timestamp := e.timestamp,
    service := e.service, pod := none, trace_id := e.trace_id,
    scenario := match e.trace_id with | some _ => e.scenario | none => none,
    score := s }

/-- Rows of the join `MATCH (log)-[:FROM_CHUNK|MENTIONS]->(chunk)` with
the mandatory `MATCH (log)-[:EMITTED_BY]->(service)` for one chunk hit:
one row per relationship between a serviced log and the chunk. -/
def hybridRowsForChunk (db : List LogEntry) (cid : String) (s : Rat) : List RetRecord :=
  db.flatMap (fun e =>
    if e.service.isSome then
      (e.chunks.filter (fun c => c == cid)).map (fun _ => hybridRecord e s)
    else [])

/-- Semantics of the semantic-search Cypher query: take the `vectorTopN`
nearest chunks of the index, join their logs, `ORDER BY score DESC`. -/
def hybridRecords (db : List LogEntry) (index : List (String × Rat)) : List RetRecord :=
  List.insertionSort scoreGe
    (((List.insertionSort chunkScoreGe index).take vectorTopN).flatMap
      (fun p => hybridRowsForChunk db p.1 p.2))

/-! ### The pipeline nodes -/

/-- `str(x)` for a nullable Cypher value interpolated into the f-string. -/
def fmtOpt : Option String → String
  | some s => s
  | none => "None"

/-- The narrative block `retrieval_node` assembles for one record. -/
def recordContent (r : RetRecord) : String :=
  "[" ++ toString r.timestamp ++ "] " ++ r.level ++ " from " ++ fmtOpt r.service ++ ":\n" ++
  "Message: " ++ r.message ++ "\n" ++
  "Trace ID: " ++ fmtOpt r.trace_id ++ "\n" ++
  "Scenario: " ++ fmtOpt r.scenario ++ "\n"

/-- The dict appended to `docs` for one record. -/
def recordToDoc (r : RetRecord) : Doc :=
  { text := recordContent r, trace_id := r.trace_id, score := r.score }

/-- The doc list computed by `retrieval_node`: regex strategy selection on
the original question, one of the two store queries, doc assembly; any
store-access failure inside the `try` block (modelled by `storeFail`)
is caught and yields `docs = []`. The optimized question only enters
through the embedding oracle behind `index`. -/
def retrievalDocs (question : String) (db : List LogEntry)
    (index : List (String × Rat)) (storeFail : Bool) : List Doc :=
  if storeFail then []
  else
    let records :=
      match findTraceId question with
      | some tid => exactTraceRecords db tid
      | none => hybridRecords db index
    records.map recordToDoc

/-- `retrieval_node` as a `GraphState` transformer: reads
`original_question` (and, through the `index` oracle,
`optimized_question`), writes `retrieved_docs`. -/
def retrievalNode (st : GraphState) (db : List LogEntry)
    (index : List (String × Rat)) (storeFail : Bool) : GraphState :=
  { st with retrieved_docs := retrievalDocs st.original_question db index storeFail }

/-- The all-null filter `{"start_date": None, "end_date": None}`. -/
def allNullFilter : TimeFilter := { start_date := none, end_date := none }

/-- `extract_dates_node`: asks the reasoning service for the filter; any
exception of the chain (service error or unparsable output, the `Except`
error case) is caught and replaced by the all-null filter. -/
def extract_dates_node (st : GraphState) (svc : Except String TimeFilter) : GraphState :=
  { st with extracted_filters :=
      match svc with
      | .ok f => f
      | .error _ => allNullFilter }

/-- The body of the success path of `OpenAIRerankerService.rerank` for one
`RankedDocument`: `if 0 <= idx < len(docs)` pick `docs[idx]` and attach
`rerank_score` and `rerank_reason`, else skip the item. -/
def applyDecision (docs : List Doc) (item : RankedDocument) : Option Doc :=
  if h : 0 ≤ item.index ∧ item.index < (docs.length : Int) then
    some { docs.get ⟨item.index.toNat, by omega⟩ with
           rerank_score := some item.relevance_score,
           rerank_reason := some item.reasoning }
  else none

/-- `OpenAIRerankerService.rerank`: empty input short-circuits to `[]`;
a successful, parsed service response is folded into the kept docs in
response order; any exception of the call or of parsing (the `Except`
error case) falls back to `docs[:top_k]`. -/
def rerank (query : String) (docs : List Doc) (top_k : Nat)
    (svc : Except String RankingOutput) : List Doc :=
  if docs.isEmpty then []
  else
    match svc with
    | .ok result => result.ranked_results.filterMap (applyDecision docs)
    | .error _ => docs.take top_k

/-! ### The compiled graph of `retrieve_graph` -/

/-- LangGraph's terminal pseudo-node `END`. -/
def END : String := "__end__"

/-- The nodes registered by the five `workflow.add_node` calls. -/
def pipelineNodes : List String :=
  ["optimize_query", "extract_dates", "retrieval", "reranking", "generation"]

/-- The edges added by `retrieve_graph` (the
`workflow.add_edge("extract_dates", ...)` line is commented out in the
source). -/
def pipelineEdges : List (String × String) :=
  [("optimize_query", "retrieval"),
   ("retrieval", "reranking"),
   ("reranking", "generation"),
   ("generation", END)]

/-- The entry point set by `workflow.set_entry_point`. -/
def entryPoint : String := "optimize_query"

/-- Successor of a node along the (deterministic) edge list. -/
def nextNode (n : String) : Option String :=
  (pipelineEdges.find? (fun e => e.1 == n)).map (fun e => e.2)

/-- Fuel-bounded walk along the edges. -/
def execPathAux : Nat → String → List String
  | 0, _ => []
  | fuel + 1, n =>
    if n == END then []
    else n :: (match nextNode n with | some m => execPathAux fuel m | none => [])

/-- The walk along the wired edges from the entry point: the stage
sequence the graph prescribes. It is executed only if
`workflow.compile()` succeeds (see `retrieve_graph` below). -/
def execPath : List String := execPathAux (pipelineNodes.length + 1) entryPoint

/-- LangGraph's virtual start node `START`. -/
def START : String := "__start__"

/-- All edges of the built workflow: `set_entry_point` is modelled by
LangGraph as an edge from the virtual `START` node, ahead of the four
`add_edge` calls. -/
def allEdges : List (String × String) := (START, entryPoint) :: pipelineEdges

/-- LangGraph's compile-time validation as run by `workflow.compile()`:
every registered node must be the source of at least one edge; the
first registered node that is not raises
`ValueError("Node `...` is a dead-end")` and compilation fails. -/
def compileValidate (nodes : List String) (edges : List (String × String)) :
    Except String Unit :=
  match nodes.find? (fun n => !edges.any (fun e => e.1 == n)) with
  | some n => .error ("Node `" ++ n ++ "` is a dead-end")
  | none => .ok ()

/-- `retrieve_graph()`: builds the workflow (nodes, entry point, edges)
and calls `workflow.compile()`. Compilation validates the graph and
raises on a dead-end node; on success the compiled pipeline runs the
stage walk `execPath` for every question. -/
def retrieve_graph : Except String (List String) :=
  match compileValidate pipelineNodes allEdges with
  | .error e => .error e
  | .ok _ => .ok execPath

/-! ### Helper lemmas -/

instance {ε α : Type} [DecidableEq ε] [DecidableEq α] : DecidableEq (Except ε α) :=
  fun a b =>
    match a, b with
    | .ok x, .ok y =>
      if h : x = y then .isTrue (by rw [h]) else .isFalse (fun hc => h (Except.ok.inj hc))
    | .error x, .error y =>
      if h : x = y then .isTrue (by rw [h]) else .isFalse (fun hc => h (Except.error.inj hc))
    | .ok _, .error _ => .isFalse (fun hc => Except.noConfusion hc)
    | .error _, .ok _ => .isFalse (fun hc => Except.noConfusion hc)

/-- Membership is invariant under insertion sort. -/
lemma mem_insertionSort {α : Type} (r : α → α → Prop) [DecidableRel r]
    (l : List α) (a : α) : a ∈ List.insertionSort r l ↔ a ∈ l :=
  (List.perm_insertionSort r l).mem_iff

/-- The length of a `filterMap` counts the inputs on which the function
succeeds. -/
lemma length_filterMap_eq_countP {α β : Type} (f : α → Option β) :
    ∀ l : List α, (l.filterMap f).length = l.countP (fun a => (f a).isSome)
  | [] => rfl
  | a :: l => by
    rw [List.filterMap_cons, List.countP_cons]
    cases hfa : f a <;>
      simp [hfa, length_filterMap_eq_countP f l, Nat.add_comm]

/-- `applyDecision` succeeds exactly on the in-range indices
(`0 <= idx < len(docs)`). -/
lemma applyDecision_isSome (docs : List Doc) (item : RankedDocument) :
    (applyDecision docs item).isSome =
      decide (0 ≤ item.index ∧ item.index < (docs.length : Int)) := by
  unfold applyDecision
  split <;> simp_all

/-! ### C1 — pipeline stage sequence -/

/-- C1 counterexample: `retrieve_graph` never yields a compiled pipeline
that runs the five stages — with the `extract_dates` wiring commented
out, the node is a dead-end and `workflow.compile()` raises, so
compilation produces the `ValueError` instead of any pipeline. -/
theorem c1_counterexample :
    retrieve_graph = .error "Node `extract_dates` is a dead-end" ∧
    retrieve_graph ≠
      .ok ["optimize_query", "extract_dates", "retrieval", "reranking", "generation"] := by
  decide

/-- C1 (amended): no question is ever processed by the five-stage
pipeline, because `retrieve_graph` raises at compile time: the
time-extraction node is registered but the source of no edge, so
LangGraph's validation rejects the graph as having a dead-end node and
no compiled pipeline exists; the wired edges, for their part, connect
only the four stages `optimize_query → retrieval → reranking →
generation` and never touch `extract_dates`. -/
theorem c1_amended_compile_rejected :
    retrieve_graph = .error "Node `extract_dates` is a dead-end" ∧
    "extract_dates" ∈ pipelineNodes ∧
    (∀ e ∈ allEdges, e.1 ≠ "extract_dates" ∧ e.2 ≠ "extract_dates") ∧
    execPath = ["optimize_query", "retrieval", "reranking", "generation"] := by decide

/-! ### C2 — the extracted time filter is never applied -/

/-- Record of the C2 counterexample: timestamp 50, linked to chunk `c1`. -/
def c2Entry : LogEntry :=
  { message := "boom", level := "ERROR", timestamp := 50,
    service := some "payment", pod := none, trace_id := some "t1",
    scenario := some "s1", chunks := ["c1"] }

/-- State of the C2 counterexample: a non-identifier question whose
extracted filter has the non-null start bound 100. -/
def c2State : GraphState :=
  { original_question := "Why did payment fail?",
    optimized_question := "payment fail",
    extracted_filters := { start_date := some 100, end_date := none },
    retrieved_docs := [], reranked_docs := [], final_answer := "" }

/-- C2 counterexample: with extracted start bound 100, the record with
timestamp 50 lies outside the inclusive bounds yet is returned as
candidate evidence — no time constraint reaches the store query. -/
theorem c2_counterexample :
    c2State.extracted_filters.start_date = some 100 ∧
    findTraceId c2State.original_question = none ∧
    c2Entry.timestamp < 100 ∧
    (retrievalNode c2State [c2Entry] [("c1", 2)] false).retrieved_docs =
      [{ text := "[50] ERROR from payment:\nMessage: boom\nTrace ID: t1\nScenario: s1\n",
         trace_id := some "t1", score := 2 }] := by decide

/-- C2 (amended): the retrieval stage ignores the extracted TimeFilter
entirely — the candidate evidence is identical for any two filter
values, so no timestamp bound is ever applied to the store query. -/
theorem c2_amended_filters_ignored (st : GraphState) (tf : TimeFilter)
    (db : List LogEntry) (index : List (String × Rat)) (storeFail : Bool) :
    (retrievalNode { st with extracted_filters := tf } db index storeFail).retrieved_docs =
      (retrievalNode st db index storeFail).retrieved_docs := rfl

/-! ### C3 — no root-cause traversal in the assembled narrative -/

/-- Anchor event of the C3 counterexample, linked to chunk `c1`. -/
def c3Anchor : LogEntry :=
  { message := "payment timeout", level := "ERROR", timestamp := 100,
    service := some "payment", pod := none, trace_id := some "t1",
    scenario := some "cascade", chunks := ["c1"] }

/-- Prior same-trace elevated-severity event of the C3 counterexample:
severity WARNING, strictly before the anchor, same trace `t1`. -/
def c3Prior : LogEntry :=
  { message := "disk full", level := "WARNING", timestamp := 50,
    service := some "db", pod := none, trace_id := some "t1",
    scenario := some "cascade", chunks := [] }

/-- C3 counterexample: the anchor returned by hybrid retrieval has a
prior same-trace WARNING event, yet its assembled narrative neither
mentions that candidate (its message appears nowhere in the text) nor
carries a `no preceding errors` marker — no RootCauseCandidate section
is assembled at all. -/
theorem c3_counterexample :
    c3Prior.trace_id = c3Anchor.trace_id ∧
    c3Prior.timestamp < c3Anchor.timestamp ∧
    c3Prior.level = "WARNING" ∧
    (retrievalDocs "Why did payment fail?" [c3Anchor, c3Prior] [("c1", 2)] false).map Doc.text =
      ["[100] ERROR from payment:\nMessage: payment timeout\nTrace ID: t1\nScenario: cascade\n"] ∧
    ¬ (c3Prior.message.toList <:+:
        ("[100] ERROR from payment:\nMessage: payment timeout\nTrace ID: t1\nScenario: cascade\n").toList) ∧
    ¬ (("no preceding errors").toList <:+:
        ("[100] ERROR from payment:\nMessage: payment timeout\nTrace ID: t1\nScenario: cascade\n").toList) := by
  decide

/-- C3 (amended): hybrid retrieval performs no backward traversal within
the trace: an event linked to no chunk — such as a causally-prior
elevated-severity event — never contributes to, and never alters, the
retrieved evidence; each narrative is assembled from its anchor record
alone. -/
theorem c3_amended_no_traversal (e : LogEntry) (db : List LogEntry)
    (index : List (String × Rat)) (h : e.chunks = []) :
    hybridRecords (e :: db) index = hybridRecords db index := by
  simp [hybridRecords, hybridRowsForChunk, h]

/-- Witness for the amended C3 theorem at a concrete prior event. -/
theorem c3_amended_no_traversal_witness :
    c3Prior.chunks = [] ∧
    hybridRecords [c3Prior] [("c1", 2)] = hybridRecords [] [("c1", 2)] :=
  ⟨rfl, c3_amended_no_traversal c3Prior [] [("c1", 2)] rfl⟩

/-! ### C4 — exact-trace retrieval -/

/-- C4: for every question in which the UUID search succeeds, retrieval
takes the exact-trace path: the evidence is the mapped result of the
exact-trace query, that result is sorted ascending by timestamp,
contains exactly the stored events of the named trace, and every
returned item carries the fixed score `1.0`. -/
theorem c4_exact_trace_path (q tid : String) (db : List LogEntry)
    (index : List (String × Rat)) (h : findTraceId q = some tid) :
    retrievalDocs q db index false = (exactTraceRecords db tid).map recordToDoc ∧
    List.Pairwise tsLe (exactTraceRecords db tid) ∧
    (∀ r ∈ exactTraceRecords db tid, r.score = 1 ∧ r.trace_id = some tid) ∧
    (∀ e ∈ db, e.trace_id = some tid → exactRecord e ∈ exactTraceRecords db tid) ∧
    (∀ d ∈ retrievalDocs q db index false, d.score = 1) := by
  have hmem : ∀ r ∈ exactTraceRecords db tid, r.score = 1 ∧ r.trace_id = some tid := by
    intro r hr
    rw [exactTraceRecords, mem_insertionSort] at hr
    obtain ⟨e, he, rfl⟩ := List.mem_map.1 hr
    obtain ⟨_, hbeq⟩ := List.mem_filter.1 he
    refine ⟨rfl, ?_⟩
    simpa [exactRecord] using hbeq
  have heq : retrievalDocs q db index false = (exactTraceRecords db tid).map recordToDoc := by
    simp [retrievalDocs, h]
  refine ⟨heq, List.sorted_insertionSort tsLe _, hmem, ?_, ?_⟩
  · intro e he htid
    rw [exactTraceRecords, mem_insertionSort]
    exact List.mem_map_of_mem exactRecord (List.mem_filter.2 ⟨he, by simp [htid]⟩)
  · intro d hd
    rw [heq] at hd
    obtain ⟨r, hr, rfl⟩ := List.mem_map.1 hd
    exact (hmem r hr).1

/-- Question of the C4/C5 witnesses carrying a canonical identifier. -/
def c4Question : String :=
  "What happened in trace a1b2c3d4-e5f6-7890-abcd-ef1234567890 today?"

/-- The identifier contained in `c4Question`. -/
def c4Tid : String := "a1b2c3d4-e5f6-7890-abcd-ef1234567890"

/-- Store content for the C4 witness: two events of the named trace given
out of timestamp order, plus one event of another trace. -/
def c4Db : List LogEntry :=
  [{ message := "late", level := "INFO", timestamp := 90,
     service := some "payment", pod := some "p1",
     trace_id := some "a1b2c3d4-e5f6-7890-abcd-ef1234567890",
     scenario := none, chunks := [] },
   { message := "early", level := "ERROR", timestamp := 10,
     service := none, pod := none,
     trace_id := some "a1b2c3d4-e5f6-7890-abcd-ef1234567890",
     scenario := none, chunks := ["c1"] },
   { message := "other", level := "INFO", timestamp := 5,
     service := some "db", pod := none, trace_id := some "t9",
     scenario := none, chunks := ["c1"] }]

/-- Witness for C4 at a concrete identifier-bearing question and store. -/
theorem c4_exact_trace_path_witness :
    findTraceId c4Question = some c4Tid ∧
    (retrievalDocs c4Question c4Db [("c1", 2)] false =
        (exactTraceRecords c4Db c4Tid).map recordToDoc ∧
      List.Pairwise tsLe (exactTraceRecords c4Db c4Tid) ∧
      (∀ r ∈ exactTraceRecords c4Db c4Tid, r.score = 1 ∧ r.trace_id = some c4Tid) ∧
      (∀ e ∈ c4Db, e.trace_id = some c4Tid →
        exactRecord e ∈ exactTraceRecords c4Db c4Tid) ∧
      (∀ d ∈ retrievalDocs c4Question c4Db [("c1", 2)] false, d.score = 1)) :=
  ⟨by decide, c4_exact_trace_path c4Question c4Tid c4Db [("c1", 2)] (by decide)⟩

/-! ### C5 — hybrid retrieval -/

/-- C5: for every question in which the UUID search fails, retrieval
takes the hybrid path: the evidence is the mapped result of the
semantic query, which consults the `vectorTopN` nearest neighbours with
`10 ≤ vectorTopN ≤ 15`, and both the record list and the returned doc
list are ordered by similarity score descending. -/
theorem c5_hybrid_path (q : String) (db : List LogEntry)
    (index : List (String × Rat)) (h : findTraceId q = none) :
    retrievalDocs q db index false = (hybridRecords db index).map recordToDoc ∧
    10 ≤ vectorTopN ∧ vectorTopN ≤ 15 ∧
    List.Pairwise scoreGe (hybridRecords db index) ∧
    List.Pairwise (fun a b => b.score ≤ a.score) (retrievalDocs q db index false) := by
  have heq : retrievalDocs q db index false = (hybridRecords db index).map recordToDoc := by
    simp [retrievalDocs, h]
  have hsorted : List.Pairwise scoreGe (hybridRecords db index) :=
    List.sorted_insertionSort scoreGe _
  refine ⟨heq, by decide, by decide, hsorted, ?_⟩
  rw [heq, List.pairwise_map]
  exact hsorted.imp (fun hab => hab)

/-- Store content for the C5 witness: two serviced events linked to
chunks of different similarity, given in ascending score order. -/
def c5Db : List LogEntry :=
  [{ message := "slow query", level := "WARNING", timestamp := 30,
     service := some "db", pod := none, trace_id := some "t2",
     scenario := some "load", chunks := ["c2"] },
   { message := "timeout", level := "ERROR", timestamp := 40,
     service := some "payment", pod := none, trace_id := some "t3",
     scenario := none, chunks := ["c3"] }]

/-- Witness for C5 at a concrete non-identifier question, store and
vector-index answer. -/
theorem c5_hybrid_path_witness :
    findTraceId "Why did payment-service fail?" = none ∧
    (retrievalDocs "Why did payment-service fail?" c5Db [("c2", 1), ("c3", 3)] false =
        (hybridRecords c5Db [("c2", 1), ("c3", 3)]).map recordToDoc ∧
      10 ≤ vectorTopN ∧ vectorTopN ≤ 15 ∧
      List.Pairwise scoreGe (hybridRecords c5Db [("c2", 1), ("c3", 3)]) ∧
      List.Pairwise (fun a b => b.score ≤ a.score)
        (retrievalDocs "Why did payment-service fail?" c5Db [("c2", 1), ("c3", 3)] false)) :=
  ⟨by decide, c5_hybrid_path "Why did payment-service fail?" c5Db
    [("c2", 1), ("c3", 3)] (by decide)⟩

/-! ### C6 — rerank index validation and the missing top-k cap -/

/-- Six candidate docs for the C6 counterexample. -/
def c6Docs : List Doc :=
  [{ text := "d0", trace_id := none, score := 1 },
   { text := "d1", trace_id := none, score := 1 },
   { text := "d2", trace_id := none, score := 1 },
   { text := "d3", trace_id := none, score := 1 },
   { text := "d4", trace_id := none, score := 1 },
   { text := "d5", trace_id := none, score := 1 }]

/-- A well-formed ranking response naming six distinct in-range indices. -/
def c6Resp : RankingOutput :=
  ⟨[⟨0, 1, "r"⟩, ⟨1, 1, "r"⟩, ⟨2, 1, "r"⟩, ⟨3, 1, "r"⟩, ⟨4, 1, "r"⟩, ⟨5, 1, "r"⟩]⟩

/-- C6 counterexample: with `top_k = 5` (the value the pipeline uses) and
a well-formed response carrying six in-range decisions, `rerank`
returns six items — the success path never truncates to `top_k`. -/
theorem c6_counterexample :
    (rerank "q" c6Docs 5 (.ok c6Resp)).length = 6 ∧
    ¬ ((rerank "q" c6Docs 5 (.ok c6Resp)).length ≤ 5) := by decide

/-- C6 (amended): for every candidate list and well-formed ranking
response, `rerank` drops each RankingDecision whose index is outside
`[0, len(candidates))` without raising — the result has exactly one
item per in-range decision — but the success path applies no `top_k`
cap: the result length is bounded only by the number of decisions in
the response (and so can exceed `top_k`). -/
theorem c6_rerank_drops_out_of_range (q : String) (docs : List Doc)
    (top_k : Nat) (r : RankingOutput) :
    (rerank q docs top_k (.ok r)).length =
      r.ranked_results.countP
        (fun item => decide (0 ≤ item.index ∧ item.index < (docs.length : Int))) ∧
    (rerank q docs top_k (.ok r)).length ≤ r.ranked_results.length := by
  have hlen : (rerank q docs top_k (.ok r)).length =
      r.ranked_results.countP
        (fun item => decide (0 ≤ item.index ∧ item.index < (docs.length : Int))) := by
    unfold rerank
    by_cases hd : docs.isEmpty
    · rw [if_pos hd]
      have h0 : docs.length = 0 := by simp [List.isEmpty_iff.1 hd]
      have hcount : List.countP
          (fun item => decide (0 ≤ item.index ∧ item.index < (docs.length : Int)))
          r.ranked_results = 0 := by
        rw [List.countP_eq_zero]
        intro item _
        simp only [h0, decide_eq_true_eq, Nat.cast_zero]
        omega
      rw [List.length_nil]
      exact hcount.symm
    · rw [if_neg hd, length_filterMap_eq_countP]
      simp only [applyDecision_isSome]
  refine ⟨hlen, ?_⟩
  rw [hlen]
  exact List.countP_le_length _

/-! ### C7 — rerank fallback on service or parsing failure -/

/-- C7: when the reasoning-service call or its parsing fails, `rerank`
returns exactly the first `top_k` candidates in their original
retrieval order; since retrieval produces candidates with no relevance
score or justification, the fallback items carry none either, and no
failure propagates (the function is total). -/
theorem c7_rerank_fallback (q : String) (docs : List Doc) (top_k : Nat)
    (err : String)
    (h : ∀ d ∈ docs, d.rerank_score = none ∧ d.rerank_reason = none) :
    rerank q docs top_k (.error err) = docs.take top_k ∧
    ∀ d ∈ rerank q docs top_k (.error err),
      d.rerank_score = none ∧ d.rerank_reason = none := by
  have heq : rerank q docs top_k (.error err) = docs.take top_k := by
    unfold rerank
    by_cases hd : docs.isEmpty
    · rw [if_pos hd, List.isEmpty_iff.1 hd, List.take_nil]
    · rw [if_neg hd]
  refine ⟨heq, ?_⟩
  rw [heq]
  intro d hd
  exact h d (List.take_subset top_k docs hd)

/-- Unscored candidate docs for the C7 witness. -/
def c7Docs : List Doc :=
  [{ text := "A", trace_id := none, score := 2 },
   { text := "B", trace_id := none, score := 1 }]

/-- Witness for C7 at a concrete non-empty candidate list. -/
theorem c7_rerank_fallback_witness :
    (∀ d ∈ c7Docs, d.rerank_score = none ∧ d.rerank_reason = none) ∧
    (rerank "q" c7Docs 1 (.error "connection reset") = c7Docs.take 1 ∧
      ∀ d ∈ rerank "q" c7Docs 1 (.error "connection reset"),
        d.rerank_score = none ∧ d.rerank_reason = none) :=
  ⟨by decide, c7_rerank_fallback "q" c7Docs 1 "connection reset" (by decide)⟩

/-! ### C8 — retrieval degrades to an empty evidence list -/

/-- C8: for every question and store content, a store-access error during
retrieval (the caught exception of the `try` block) yields an empty
evidence list instead of propagating, and the graph unconditionally
continues from the retrieval stage to the reranking stage. -/
theorem c8_store_error_degrades (st : GraphState) (db : List LogEntry)
    (index : List (String × Rat)) :
    (retrievalNode st db index true).retrieved_docs = [] ∧
    ("retrieval", "reranking") ∈ pipelineEdges ∧
    nextNode "retrieval" = some "reranking" :=
  ⟨rfl, by decide, by decide⟩

/-! ### C9 — time extraction falls back to the all-null filter -/

/-- C9: for every question, any failure of the reasoning-service chain
during time extraction is caught and replaced by the all-null
TimeFilter `{start_date: null, end_date: null}`; the node is total, so
nothing is raised to its caller. -/
theorem c9_time_extraction_fallback (st : GraphState) (err : String) :
    (extract_dates_node st (.error err)).extracted_filters = allNullFilter ∧
    (extract_dates_node st (.error err)).extracted_filters.start_date = none ∧
    (extract_dates_node st (.error err)).extracted_filters.end_date = none :=
  ⟨rfl, rfl, rfl⟩

/-! ### C10 — duplicate in-range indices are kept twice -/

/-- First candidate of the C10 scenario. -/
def c10DocA : Doc := { text := "A", trace_id := none, score := 1 }

/-- Second candidate of the C10 scenario. -/
def c10DocB : Doc := { text := "B", trace_id := none, score := 1 }

/-- A service response repeating the in-range index 0. -/
def c10Resp : RankingOutput := ⟨[⟨0, 1, "dup"⟩, ⟨0, 1, "dup"⟩]⟩

/-- The enriched doc both decisions of `c10Resp` produce. -/
def c10Dup : Doc :=
  { text := "A", trace_id := none, score := 1,
    rerank_score := some 1, rerank_reason := some "dup" }

/-- C10: `rerank` validates each decision index only for range, not
uniqueness — a response repeating the same in-range index twice makes
the corresponding candidate appear twice in the returned list. -/
theorem c10_duplicate_index_kept :
    c10Resp.ranked_results.map RankedDocument.index = [0, 0] ∧
    rerank "q" [c10DocA, c10DocB] 5 (.ok c10Resp) = [c10Dup, c10Dup] ∧
    (rerank "q" [c10DocA, c10DocB] 5 (.ok c10Resp)).count c10Dup = 2 := by decide

end BellaTracer
